import Mathlib

/-!
Shallow embedding of the WarGames/JOSHUA quantitative risk-scoring and
consensus core: `src/types.rs`, `src/constants.rs`,
`src/models/risk_factor.rs`, `src/engines/risk_calculation.rs` and
`src/analyzers/consensus.rs`.

Conventions of the embedding:
* `f64` values are embedded as exact rationals (`ℚ`); the one genuinely
  irrational operation, `f64::sqrt`, is embedded as `Real.sqrt` over `ℝ`.
* `u32` values are embedded as `ℕ` (no computation in the core comes near
  `u32::MAX`).
* `HashMap`s keyed by the closed `RiskCategory` enumeration are embedded as
  association lists built in the fixed declaration order of the
  enumeration; every quantity the code derives from such a map is an
  iteration-order-independent sum, so the arbitrary iteration order of the
  real `HashMap` is immaterial.
* Fallible Rust functions returning `Result` are embedded as `Except`;
  a reachable Rust panic (index out of bounds) is embedded as a dedicated
  error value.
-/

namespace WarGames

/-- From `types.rs`: the `ConfidenceLevel` enumeration. -/
inductive ConfidenceLevel where
  | VeryLow
  | Low
  | Moderate
  | High
  | VeryHigh
  deriving DecidableEq

/-- From `types.rs`: `ConfidenceLevel::to_score`. -/
def ConfidenceLevel.to_score : ConfidenceLevel → ℚ
  | .VeryLow => 0.2
  | .Low => 0.4
  | .Moderate => 0.6
  | .High => 0.8
  | .VeryHigh => 1.0

/-- From `types.rs`: `ConfidenceLevel::to_numeric`, an alias for `to_score`. -/
def ConfidenceLevel.to_numeric (c : ConfidenceLevel) : ℚ :=
  c.to_score

/-- From `types.rs`: the `TrendDirection` enumeration. -/
inductive TrendDirection where
  | Improving
  | Deteriorating
  | Stable
  | Uncertain
  deriving DecidableEq

/-- From `types.rs`: the `RiskCategory` enumeration (all 13 variants, in
declaration order). -/
inductive RiskCategory where
  | NuclearArsenalChanges
  | DoctrineAndPosture
  | ArmsControlBreakdown
  | RegionalConflicts
  | LeadershipAndRhetoric
  | LeadershipInstability
  | TechnicalIncidents
  | CommunicationBreakdown
  | CommunicationFailures
  | EmergingTechnology
  | EmergingTechRisks
  | EconomicFactors
  | EconomicPressure
  deriving DecidableEq

/-- The `RiskCategory` variants in declaration order; used as the canonical
iteration order wherever the source iterates a `HashMap` keyed by
`RiskCategory`. -/
def allCategories : List RiskCategory :=
  [.NuclearArsenalChanges, .DoctrineAndPosture, .ArmsControlBreakdown,
   .RegionalConflicts, .LeadershipAndRhetoric, .LeadershipInstability,
   .TechnicalIncidents, .CommunicationBreakdown, .CommunicationFailures,
   .EmergingTechnology, .EmergingTechRisks, .EconomicFactors,
   .EconomicPressure]

/-- From `types.rs`: `RiskCategory::default_weight`. -/
def RiskCategory.default_weight : RiskCategory → ℚ
  | .RegionalConflicts => 0.20
  | .NuclearArsenalChanges | .DoctrineAndPosture
  | .ArmsControlBreakdown | .TechnicalIncidents => 0.15
  | .LeadershipInstability | .LeadershipAndRhetoric
  | .CommunicationBreakdown | .CommunicationFailures
  | .EmergingTechnology | .EmergingTechRisks => 0.10
  | .EconomicFactors | .EconomicPressure => 0.05

/-- From `constants.rs`: `CRITICAL_THRESHOLD`. -/
def CRITICAL_THRESHOLD : ℕ := 100

/-- From `constants.rs`: `SEVERE_THRESHOLD`. -/
def SEVERE_THRESHOLD : ℕ := 200

/-- From `constants.rs`: `HIGH_THRESHOLD`. -/
def HIGH_THRESHOLD : ℕ := 400

/-- From `constants.rs`: `MODERATE_THRESHOLD`. -/
def MODERATE_THRESHOLD : ℕ := 600

/-- From `constants.rs`: `LOW_THRESHOLD`. -/
def LOW_THRESHOLD : ℕ := 900

/-- From `constants.rs`: `MAX_SECONDS_TO_MIDNIGHT`. -/
def MAX_SECONDS_TO_MIDNIGHT : ℕ := 1440

/-- From `models/risk_factor.rs`: the `RiskFactor` record. The `id` (a fresh
UUID) and `timestamp` (wall-clock time) fields are external effects outside
the scoring core and are omitted; no computation in the core reads them. -/
structure RiskFactor where
  category : RiskCategory
  name : String
  value : ℚ
  weighted_value : ℚ
  contribution_to_risk : ℚ
  confidence : ConfidenceLevel
  data_sources : List String
  trend : Option TrendDirection
  deriving DecidableEq

/-- From `models/risk_factor.rs`: `RiskFactor::new`. It stores `value` exactly
as given (no validation, no clamping). -/
def RiskFactor.new (category : RiskCategory) (name : String) (value : ℚ)
    (confidence : ConfidenceLevel) : RiskFactor :=
  let category_weight := category.default_weight
  let weighted_value := value * category_weight
  { category := category
    name := name
    value := value
    weighted_value := weighted_value
    contribution_to_risk := weighted_value
    confidence := confidence
    data_sources := []
    trend := none }

/-- From `engines/risk_calculation.rs`: the `RiskLevel` enumeration. -/
inductive RiskLevel where
  | Minimal
  | Low
  | Moderate
  | High
  | Severe
  | Critical
  deriving DecidableEq

/-- From `engines/risk_calculation.rs`: `RiskLevel::from_seconds`. The Rust
`match` arms `0..=100`, `101..=200`, `201..=400`, `401..=600`, `601..=900`
and the catch-all are rendered as the equivalent cascade of `≤` tests. -/
def RiskLevel.from_seconds (seconds : ℕ) : RiskLevel :=
  if seconds ≤ 100 then .Critical
  else if seconds ≤ 200 then .Severe
  else if seconds ≤ 400 then .High
  else if seconds ≤ 600 then .Moderate
  else if seconds ≤ 900 then .Low
  else .Minimal

/-- From `engines/risk_calculation.rs`: `RiskLevel::as_str`. -/
def RiskLevel.as_str : RiskLevel → String
  | .Critical => "CRITICAL"
  | .Severe => "SEVERE"
  | .High => "HIGH"
  | .Moderate => "MODERATE"
  | .Low => "LOW"
  | .Minimal => "MINIMAL"

/-- The title-case label of each `RiskLevel`, i.e. the spelling that the
consensus analyzer's string-returning bucket function
(`ConsensusAnalyzer::seconds_to_risk_level`) uses for the same bucket.
Introduced only to compare the two bucket implementations: `as_str` is the
all-caps spelling, so bucket identity is compared through this map. -/
def RiskLevel.title : RiskLevel → String
  | .Critical => "Critical"
  | .Severe => "Severe"
  | .High => "High"
  | .Moderate => "Moderate"
  | .Low => "Low"
  | .Minimal => "Minimal"

/-- Rust `f64::clamp(lo, hi)` for finite inputs and `lo ≤ hi`. -/
def fclamp (x lo hi : ℚ) : ℚ :=
  min (max x lo) hi

/-- From `engines/risk_calculation.rs`: `RiskCalculationConfig`. The category
weight `HashMap` is embedded as a partial map on the closed enumeration. -/
structure RiskCalculationConfig where
  category_weights : RiskCategory → Option ℚ
  monte_carlo_iterations : ℕ
  bayesian_prior_strength : ℚ
  enable_bayesian_adjustment : Bool
  enable_monte_carlo : Bool

/-- From `engines/risk_calculation.rs`: `RiskCalculationConfig::default`.
Exactly the eight categories inserted by the source get a weight; the other
five `RiskCategory` variants have no entry. -/
def RiskCalculationConfig.default : RiskCalculationConfig where
  category_weights := fun c =>
    match c with
    | .NuclearArsenalChanges => some 0.15
    | .DoctrineAndPosture => some 0.15
    | .RegionalConflicts => some 0.20
    | .LeadershipAndRhetoric => some 0.10
    | .TechnicalIncidents => some 0.15
    | .CommunicationBreakdown => some 0.10
    | .EmergingTechnology => some 0.10
    | .EconomicFactors => some 0.05
    | _ => none
  monte_carlo_iterations := 10000
  bayesian_prior_strength := 0.3
  enable_bayesian_adjustment := true
  enable_monte_carlo := true

/-- From `engines/risk_calculation.rs`: `MonteCarloStatistics`. The source
stores `std_dev`; since `f64::sqrt` is the one irrational operation,
this embedding stores the exact `variance` (`std_dev` is its square root),
which keeps the whole calculation engine computable. No claim mentions the
Monte Carlo standard deviation. -/
structure MonteCarloStatistics where
  mean : ℚ
  variance : ℚ
  percentile_5 : ℚ
  percentile_95 : ℚ
  median : ℚ
  deriving DecidableEq

/-- From `engines/risk_calculation.rs`: `RiskCalculationResult`. -/
structure RiskCalculationResult where
  raw_score : ℚ
  bayesian_score : ℚ
  seconds_to_midnight : ℕ
  confidence_interval : ℚ × ℚ
  risk_level : RiskLevel
  trend_direction : TrendDirection
  primary_drivers : List (String × ℚ)
  category_scores : List (RiskCategory × ℚ)
  monte_carlo_stats : Option MonteCarloStatistics
  deriving DecidableEq

/-- From `error.rs`: the `Error` variants the scoring core can produce.
`validation` is `Error::Validation`, `analysis` is `Error::Analysis`;
`panicked` stands for a Rust panic (the engine's out-of-bounds vector index
when a Monte Carlo run collects zero samples), which is not an `Error`
variant in the source but must be represented for the embedding to be
total. -/
inductive Error where
  | validation (msg : String)
  | analysis (msg : String)
  | panicked (msg : String)
  deriving DecidableEq

/-- From `engines/risk_calculation.rs`: the engine's fixed
`historical_baseline` (89 seconds, as `89/1440 ≈ 0.062`). -/
def historical_baseline : ℚ := 0.062

/-- One entry of `RiskCalculationEngine::calculate_category_scores`: the
average of the values of the factors of category `c`, clamped to `[0,1]`,
or no entry when no factor has category `c`. -/
def catEntry (factors : List RiskFactor) (c : RiskCategory) :
    Option (RiskCategory × ℚ) :=
  let values := (factors.filter (fun f => f.category = c)).map (fun f => f.value)
  if values.isEmpty then none
  else some (c, fclamp (values.sum / values.length) 0 1)

/-- From `engines/risk_calculation.rs`:
`RiskCalculationEngine::calculate_category_scores` (grouping by category,
then the clamped per-category mean). The source's `HashMap` is embedded as
an association list over the canonical category order. The source wraps the
map in `Ok`; it has no failure path, so the embedding returns the map
directly. -/
def calculate_category_scores (factors : List RiskFactor) :
    List (RiskCategory × ℚ) :=
  allCategories.filterMap (catEntry factors)

/-- From `engines/risk_calculation.rs`:
`RiskCalculationEngine::calculate_weighted_score`. Categories with no entry
in the weight table contribute to neither the weighted sum nor the total
weight; a zero total weight yields `0.0`; the result is clamped to `[0,1]`.
The source accumulates both sums in one loop over the map; sums are
iteration-order independent. -/
def calculate_weighted_score (cfg : RiskCalculationConfig)
    (category_scores : List (RiskCategory × ℚ)) : ℚ :=
  let weighted_sum : ℚ := (category_scores.map (fun p =>
    match cfg.category_weights p.1 with
    | some w => p.2 * w
    | none => 0)).sum
  let total_weight : ℚ := (category_scores.map (fun p =>
    match cfg.category_weights p.1 with
    | some w => w
    | none => 0)).sum
  let final_score := if 0 < total_weight then weighted_sum / total_weight else 0
  fclamp final_score 0 1

/-- From `engines/risk_calculation.rs`, inside `apply_bayesian_adjustment`:
the mean of the factors' numeric confidence scores, with the source's
`factors.len().max(1)` denominator guard. -/
def avg_confidence (factors : List RiskFactor) : ℚ :=
  (factors.map (fun f => f.confidence.to_numeric)).sum / (max factors.length 1)

/-- From `engines/risk_calculation.rs`:
`RiskCalculationEngine::apply_bayesian_adjustment`. -/
def apply_bayesian_adjustment (cfg : RiskCalculationConfig) (raw_score : ℚ)
    (factors : List RiskFactor) : ℚ :=
  let confidence_weight := avg_confidence factors
  let baseline_weight := (1 - avg_confidence factors) * cfg.bayesian_prior_strength
  let total_weight := confidence_weight + baseline_weight
  let adjusted := (raw_score * confidence_weight
    + historical_baseline * baseline_weight) / total_weight
  fclamp adjusted 0 1

/-- From `engines/risk_calculation.rs`, inside `run_monte_carlo_simulation`:
one perturbed copy of the factor list for a given deterministic
`variation`. -/
def simulate_factors (factors : List RiskFactor) (variation : ℚ) :
    List RiskFactor :=
  factors.map (fun f =>
    let uncertainty := 1 - f.confidence.to_numeric
    let noise := variation * uncertainty
    { f with value := fclamp (f.value + noise) 0 1 })

/-- From `engines/risk_calculation.rs`, inside `run_monte_carlo_simulation`:
the `N` deterministic simulated composite scores, in iteration order. -/
def simulated_scores (cfg : RiskCalculationConfig)
    (factors : List RiskFactor) : List ℚ :=
  (List.range cfg.monte_carlo_iterations).map (fun i =>
    let variation := ((i : ℚ) / (cfg.monte_carlo_iterations : ℚ) - 0.5) * 0.2
    calculate_weighted_score cfg
      (calculate_category_scores (simulate_factors factors variation)))

/-- From `engines/risk_calculation.rs`:
`RiskCalculationEngine::run_monte_carlo_simulation`. The percentile indices
`(len as f64 * 0.05) as usize` and `(len as f64 * 0.95) as usize` are the
floors of the exact products. When the iteration count is zero the source
indexes an empty vector and panics; the embedding returns `none` for that
case. The `getD` defaults are unreachable: every index is below the length
of the non-empty sorted list. -/
def run_monte_carlo_simulation (cfg : RiskCalculationConfig)
    (factors : List RiskFactor) : Option MonteCarloStatistics :=
  let sorted := (simulated_scores cfg factors).insertionSort (· ≤ ·)
  let n := sorted.length
  if n = 0 then none
  else
    let mean : ℚ := sorted.sum / (n : ℚ)
    let variance : ℚ := (sorted.map (fun x => (x - mean) ^ 2)).sum / (n : ℚ)
    some
      { mean := mean
        variance := variance
        percentile_5 := sorted.getD (((n : ℚ) * 0.05).floor.toNat) 0
        percentile_95 := sorted.getD (((n : ℚ) * 0.95).floor.toNat) 0
        median := sorted.getD (n / 2) 0 }

/-- From `engines/risk_calculation.rs`:
`RiskCalculationEngine::score_to_seconds`, i.e. `1440.0 * (1.0 - score)`
rounded and cast to `u32`. Rust rounds half away from zero and the `as u32`
cast saturates below at `0`; `Int.toNat ∘ round` agrees with that
composition at every rational input (for non-negative arguments round half
up coincides with round half away from zero, and every negative rounded
value is truncated to `0` by both). -/
def score_to_seconds (score : ℚ) : ℕ :=
  (round ((1440 : ℚ) * (1 - score))).toNat

/-- From `engines/risk_calculation.rs`:
`RiskCalculationEngine::determine_trend`. -/
def determine_trend (factors : List RiskFactor) : TrendDirection :=
  let deteriorating :=
    (factors.filter (fun f => f.trend = some .Deteriorating)).length
  let improving :=
    (factors.filter (fun f => f.trend = some .Improving)).length
  if improving * 2 < deteriorating then .Deteriorating
  else if deteriorating * 2 < improving then .Improving
  else .Stable

/-- From `engines/risk_calculation.rs`:
`RiskCalculationEngine::identify_primary_drivers`. Factors whose category
has no weight entry produce no contribution at all; the contributions are
stably sorted by descending contribution and truncated to five. The
source's stable `sort_by` is embedded as the (stable) insertion sort. -/
def identify_primary_drivers (cfg : RiskCalculationConfig)
    (factors : List RiskFactor) : List (String × ℚ) :=
  let contributions := factors.filterMap (fun f =>
    match cfg.category_weights f.category with
    | some w => some (f.name, f.value * w)
    | none => none)
  (contributions.insertionSort (fun a b => b.2 ≤ a.2)).take 5

/-- From `engines/risk_calculation.rs`:
`RiskCalculationEngine::calculate_risk`. Empty input is rejected with
`Error::Validation`; with Monte Carlo enabled the confidence interval is
`(p5, p95)` of the simulated scores (and a zero iteration count panics,
embedded as `Error.panicked`); with it disabled the interval is
`(bayesian_score * 0.9, bayesian_score * 1.1)` with no statistics. -/
def calculate_risk (cfg : RiskCalculationConfig) (factors : List RiskFactor) :
    Except Error RiskCalculationResult :=
  if factors.isEmpty then
    .error (.validation "Cannot calculate risk with no factors")
  else
    let category_scores := calculate_category_scores factors
    let raw_score := calculate_weighted_score cfg category_scores
    let bayesian_score :=
      if cfg.enable_bayesian_adjustment then
        apply_bayesian_adjustment cfg raw_score factors
      else raw_score
    let ciStats : Option ((ℚ × ℚ) × Option MonteCarloStatistics) :=
      if cfg.enable_monte_carlo then
        (run_monte_carlo_simulation cfg factors).map (fun stats =>
          ((stats.percentile_5, stats.percentile_95), some stats))
      else
        some ((bayesian_score * 0.9, bayesian_score * 1.1), none)
    match ciStats with
    | none => .error (.panicked "index out of bounds: the len is 0")
    | some (confidence_interval, monte_carlo_stats) =>
      .ok
        { raw_score := raw_score
          bayesian_score := bayesian_score
          seconds_to_midnight := score_to_seconds bayesian_score
          confidence_interval := confidence_interval
          risk_level := RiskLevel.from_seconds (score_to_seconds bayesian_score)
          trend_direction := determine_trend factors
          primary_drivers := identify_primary_drivers cfg factors
          category_scores := category_scores
          monte_carlo_stats := monte_carlo_stats }

/-- From `types.rs`: the `ImpactLevel` enumeration. -/
inductive ImpactLevel where
  | Low
  | Medium
  | High
  | Critical
  deriving DecidableEq

/-- The `Debug` rendering of an `ImpactLevel` (used by the `{:?}` format in
`merge_critical_developments`). -/
def ImpactLevel.debugStr : ImpactLevel → String
  | .Low => "Low"
  | .Medium => "Medium"
  | .High => "High"
  | .Critical => "Critical"

/-- From `analyzers/response_parser.rs`: `CriticalDevelopment`. -/
structure CriticalDevelopment where
  event : String
  impact : ImpactLevel
  affected_regions : List String
  escalation_potential : ℚ
  deriving DecidableEq

/-- From `analyzers/response_parser.rs`: `ClaudeRiskAnalysis`. The
`risk_factors` `HashMap<String, f64>` is embedded as an association list. -/
structure ClaudeRiskAnalysis where
  seconds_to_midnight : ℕ
  confidence_level : ConfidenceLevel
  trend_direction : TrendDirection
  risk_factors : List (String × ℚ)
  critical_developments : List CriticalDevelopment
  early_warning_indicators : List String
  executive_summary : String
  detailed_analysis : String
  recommendations : List String
  deriving DecidableEq

/-- From `analyzers/consensus.rs`: `ConsensusConfig`. The `temperature_range`
field configures only the excluded AI-integration collaborator and is never
read by `ConsensusAnalyzer`; it is omitted. -/
structure ConsensusConfig where
  num_analyses : ℕ
  max_divergence_seconds : ℕ
  deriving DecidableEq

/-- From `analyzers/consensus.rs`: `ConsensusConfig::default`. -/
def ConsensusConfig.default : ConsensusConfig where
  num_analyses := 3
  max_divergence_seconds := 60

/-- The mean of a list of `u32` seconds values as the source computes it in
`ConsensusAnalyzer::calculate_statistics`: integer sum cast to `f64`,
divided by the length. (For the empty list, unreachable behind the ≥ 2
guard, `f64` would give `NaN`; the rational division yields `0`.) -/
def meanSeconds (values : List ℕ) : ℚ :=
  (values.sum : ℚ) / (values.length : ℚ)

/-- The population variance of a list of `u32` seconds values about a given
mean, as computed (inline, over `f64`) both in
`ConsensusAnalyzer::calculate_statistics` and in
`ConsensusAnalyzer::calculate_agreement_level`. -/
def varianceSeconds (values : List ℕ) (mean : ℚ) : ℚ :=
  ((values.map (fun x : ℕ => ((x : ℚ) - mean) ^ 2)).sum) / (values.length : ℚ)

/-- The population standard deviation `variance.sqrt()` about a given mean,
the one irrational quantity of the consensus analyzer. -/
noncomputable def stdDevSeconds (values : List ℕ) (mean : ℚ) : ℝ :=
  Real.sqrt ((varianceSeconds values mean : ℚ) : ℝ)

/-- From `analyzers/consensus.rs`:
`ConsensusAnalyzer::calculate_statistics`, returning
`(mean, std_dev, median)`. The median is `sorted[sorted.len() / 2]` — for
even length that index names the upper of the two middle elements. The
`getD` default is unreachable: `len / 2 < len` whenever the input (guarded
to hold ≥ 2 analyses) is non-empty. Rust's `sort_unstable` on `u32` is
embedded as insertion sort (any correct sort of naturals produces the same
list). -/
noncomputable def calculate_statistics (values : List ℕ) : ℚ × ℝ × ℕ :=
  let mean := meanSeconds values
  let std_dev := stdDevSeconds values mean
  let sorted := values.insertionSort (· ≤ ·)
  let median := sorted.getD (sorted.length / 2) 0
  (mean, std_dev, median)

/-- From `analyzers/consensus.rs`: `ConsensusAnalyzer::calculate_divergence`
(`max - min`, with `unwrap_or(0)` for the empty list; `ℕ` subtraction
cannot underflow here since max ≥ min). -/
def calculate_divergence (values : List ℕ) : ℕ :=
  let mn := values.min?.getD 0
  let mx := values.max?.getD 0
  mx - mn

/-- From `analyzers/consensus.rs`:
`ConsensusAnalyzer::aggregate_risk_factors`: the per-name mean of the named
risk factor scores across all analyses that report the name. The source's
`HashMap` accumulation is embedded keyed in first-occurrence order; each
mean is iteration-order independent. -/
def aggregate_risk_factors (analyses : List ClaudeRiskAnalysis) :
    List (String × ℚ) :=
  let allPairs := (analyses.map (fun a => a.risk_factors)).flatten
  let keys := (allPairs.map (fun p => p.1)).dedup
  keys.map (fun k =>
    let vs := (allPairs.filter (fun p => p.1 = k)).map (fun p => p.2)
    (k, vs.sum / (vs.length : ℚ)))

/-- The shared shape of the three `merge_*` deduplications in
`analyzers/consensus.rs`: walk all items in input order, keep an item when
its lower-cased key is new, and emit `render` of it. -/
def dedupByLowerKey {α : Type} (items : List α) (key : α → String)
    (render : α → String) : List String :=
  (items.foldl (fun (acc : List String × List String) d =>
    let k := (key d).toLower
    if acc.1.contains k then acc
    else (acc.1 ++ [k], acc.2 ++ [render d])) ([], [])).2

/-- The string a merged critical development is rendered to in
`ConsensusAnalyzer::merge_critical_developments`. The `{:.2}` numeric
formatting of `escalation_potential` is abstracted as `toString` of the
rational; no claim depends on the rendered text. -/
def renderDevelopment (d : CriticalDevelopment) : String :=
  d.event ++ " (Impact: " ++ d.impact.debugStr ++ ", Escalation: "
    ++ toString d.escalation_potential ++ ")"

/-- From `analyzers/consensus.rs`:
`ConsensusAnalyzer::merge_critical_developments` (deduplicate by
lower-cased event, first occurrence wins, input order preserved). -/
def merge_critical_developments (analyses : List ClaudeRiskAnalysis) :
    List String :=
  dedupByLowerKey ((analyses.map (fun a => a.critical_developments)).flatten)
    (fun d => d.event) renderDevelopment

/-- From `analyzers/consensus.rs`:
`ConsensusAnalyzer::merge_early_warning_indicators`. -/
def merge_early_warning_indicators (analyses : List ClaudeRiskAnalysis) :
    List String :=
  dedupByLowerKey
    ((analyses.map (fun a => a.early_warning_indicators)).flatten)
    (fun s => s) (fun s => s)

/-- From `analyzers/consensus.rs`: `ConsensusAnalyzer::merge_recommendations`. -/
def merge_recommendations (analyses : List ClaudeRiskAnalysis) :
    List String :=
  dedupByLowerKey ((analyses.map (fun a => a.recommendations)).flatten)
    (fun s => s) (fun s => s)

/-- From `analyzers/consensus.rs`:
`ConsensusAnalyzer::calculate_consensus_confidence`: mean numeric
confidence of the analyses, minus the variance penalty
`min(std_dev / 100, 0.3)`, then `.max(0.0).min(1.0)`. -/
noncomputable def calculate_consensus_confidence
    (analyses : List ClaudeRiskAnalysis) (std_dev : ℝ) : ℝ :=
  let mean_confidence : ℝ :=
    ((analyses.map (fun a => (a.confidence_level.to_score : ℝ))).sum)
      / (analyses.length : ℝ)
  let variance_penalty := min (std_dev / 100) 0.3
  min (max (mean_confidence - variance_penalty) 0) 1

/-- Model of the Rust expression `(x / y).min(1.0)` over `f64` for
non-negative `x` and `y`: when `y = 0` the quotient is non-finite (`NaN`
for `x = 0`, `+∞` for `x > 0`), and in either case Rust's `f64::min`
with `1.0` returns `1.0` (`f64::min` returns the other operand when one
argument is `NaN`). There is no guard in the source; this definition is
the IEEE behaviour of the unguarded division, not a guard. -/
noncomputable def f64_div_min_one (x y : ℝ) : ℝ :=
  if y = 0 then 1 else min (x / y) 1

/-- From `analyzers/consensus.rs`:
`ConsensusAnalyzer::calculate_agreement_level`:
`1.0 - (variance.sqrt() / mean).min(1.0)`, the variance being recomputed
about the passed mean. -/
noncomputable def calculate_agreement_level (values : List ℕ) (mean : ℝ) : ℝ :=
  let variance : ℝ :=
    ((values.map (fun x : ℕ => ((x : ℝ) - mean) ^ 2)).sum) / (values.length : ℝ)
  1 - f64_div_min_one (Real.sqrt variance) mean

/-- From `analyzers/consensus.rs`:
`ConsensusAnalyzer::build_consensus_summary` (the first analysis's
executive summary, or a fixed fallback). -/
def build_consensus_summary (analyses : List ClaudeRiskAnalysis) : String :=
  match analyses with
  | [] => "No analyses available for consensus"
  | a :: _ => a.executive_summary

/-- From `analyzers/consensus.rs`:
`ConsensusAnalyzer::seconds_to_risk_level`. The Rust `match` on
`0..=CRITICAL_THRESHOLD`, `..=SEVERE_THRESHOLD`, `..=HIGH_THRESHOLD`,
`..=MODERATE_THRESHOLD` and the catch-all is rendered as the equivalent
cascade of `≤` tests. Note: unlike `RiskLevel::from_seconds`, this
function has no `Minimal` bucket — everything above `MODERATE_THRESHOLD`
is `"Low"`. -/
def seconds_to_risk_level (seconds : ℕ) : String :=
  if seconds ≤ CRITICAL_THRESHOLD then "Critical"
  else if seconds ≤ SEVERE_THRESHOLD then "Severe"
  else if seconds ≤ HIGH_THRESHOLD then "High"
  else if seconds ≤ MODERATE_THRESHOLD then "Moderate"
  else "Low"

/-- From `analyzers/consensus.rs`: `ConsensusAnalysis`. -/
structure ConsensusAnalysis where
  consensus_seconds : ℕ
  mean_seconds : ℚ
  std_dev : ℝ
  confidence : ℝ
  risk_level : String
  risk_factors : List (String × ℚ)
  critical_developments : List String
  early_warning_indicators : List String
  executive_summary : String
  individual_analyses : List ClaudeRiskAnalysis
  agreement_level : ℝ
  recommendations : List String

/-- From `analyzers/consensus.rs`: `ConsensusAnalyzer::build_consensus`.
Fewer than 2 analyses fail with `Error::Analysis` (the spec's
`InsufficientAnalyses` kind) and no partial result; otherwise the
construction is total. The divergence check in the source only emits a
`warn!` log line when `calculate_divergence` exceeds
`max_divergence_seconds`; it does not alter the result, so the config is
not consulted by the embedding (logging has no semantic content). -/
noncomputable def build_consensus (_cfg : ConsensusConfig)
    (analyses : List ClaudeRiskAnalysis) : Except Error ConsensusAnalysis :=
  if analyses.length < 2 then
    .error (.analysis "Need at least 2 analyses for consensus")
  else
    let seconds := analyses.map (fun a => a.seconds_to_midnight)
    let stats := calculate_statistics seconds
    let mean := stats.1
    let std_dev := stats.2.1
    let median := stats.2.2
    .ok
      { consensus_seconds := median
        mean_seconds := mean
        std_dev := std_dev
        confidence := calculate_consensus_confidence analyses std_dev
        risk_level := seconds_to_risk_level median
        risk_factors := aggregate_risk_factors analyses
        critical_developments := merge_critical_developments analyses
        early_warning_indicators := merge_early_warning_indicators analyses
        executive_summary := build_consensus_summary analyses
        individual_analyses := analyses
        agreement_level := calculate_agreement_level seconds (mean : ℝ)
        recommendations := merge_recommendations analyses }

/-- The agreement-level formula exactly as the spec words it,
`1 − min(1, std_dev / mean)` over the batch's own mean and population
standard deviation, read with total (guarded) division — in Lean
`x / 0 = 0`, which plays the role of the guard the spec postulates for
`mean = 0`. Stated only to be compared against the implementation's
`calculate_agreement_level`. -/
noncomputable def agreement_level_formula (values : List ℕ) : ℝ :=
  1 - min 1 (stdDevSeconds values (meanSeconds values)
    / ((meanSeconds values : ℚ) : ℝ))

/-- Mirror of the source's test helper `create_test_analysis` in
`analyzers/consensus.rs`: an analysis record with the given scaled value
and fixed content elsewhere. -/
def create_test_analysis (seconds : ℕ) : ClaudeRiskAnalysis where
  seconds_to_midnight := seconds
  confidence_level := .High
  trend_direction := .Stable
  risk_factors := []
  critical_developments := []
  early_warning_indicators := []
  executive_summary := "Test summary"
  detailed_analysis := "Test analysis"
  recommendations := []

/-- The default engine configuration with the simulation disabled; used to
exercise the `(score*0.9, score*1.1)` confidence-interval branch on
concrete inputs. -/
def cfgNoMonteCarlo : RiskCalculationConfig :=
  { RiskCalculationConfig.default with enable_monte_carlo := false }

/-- A single maximal-confidence factor with value `0.5` in a weighted
category. -/
def factorHalf : RiskFactor :=
  RiskFactor.new .RegionalConflicts "F" 0.5 .VeryHigh

/-- A single maximal-confidence factor with value `1.0` (maximal risk) in a
weighted category. -/
def factorOne : RiskFactor :=
  RiskFactor.new .RegionalConflicts "F" 1 .VeryHigh

/-- The full result of `calculate_risk cfgNoMonteCarlo [factorHalf]`,
written out concretely. -/
def resultHalf : RiskCalculationResult where
  raw_score := 0.5
  bayesian_score := 0.5
  seconds_to_midnight := 720
  confidence_interval := (0.45, 0.55)
  risk_level := .Low
  trend_direction := .Stable
  primary_drivers := [("F", 0.1)]
  category_scores := [(.RegionalConflicts, 0.5)]
  monte_carlo_stats := none

/-! ## Helper lemmas -/

theorem fclamp_zero_one_mem (x : ℚ) : 0 ≤ fclamp x 0 1 ∧ fclamp x 0 1 ≤ 1 := by
  unfold fclamp
  exact ⟨le_min (le_max_right x 0) zero_le_one, min_le_right _ _⟩

theorem fclamp_of_mem {x : ℚ} (h0 : 0 ≤ x) (h1 : x ≤ 1) : fclamp x 0 1 = x := by
  unfold fclamp
  rw [max_eq_left h0, min_eq_left h1]

theorem sum_sq_dev_cast (l : List ℕ) (m : ℚ) :
    ((l.map (fun x : ℕ => ((x : ℝ) - ((m : ℚ) : ℝ)) ^ 2)).sum)
      = (((l.map (fun x : ℕ => ((x : ℚ) - m) ^ 2)).sum : ℚ) : ℝ) := by
  induction l with
  | nil => norm_num
  | cons a t ih =>
    simp only [List.map_cons, List.sum_cons, ih]
    push_cast
    ring

theorem variance_cast (values : List ℕ) (m : ℚ) :
    ((values.map (fun x : ℕ => ((x : ℝ) - ((m : ℚ) : ℝ)) ^ 2)).sum)
        / (values.length : ℝ)
      = ((varianceSeconds values m : ℚ) : ℝ) := by
  rw [sum_sq_dev_cast]
  unfold varianceSeconds
  push_cast
  ring

theorem calculate_weighted_score_mem (cfg : RiskCalculationConfig)
    (scores : List (RiskCategory × ℚ)) :
    0 ≤ calculate_weighted_score cfg scores ∧
      calculate_weighted_score cfg scores ≤ 1 := by
  unfold calculate_weighted_score
  exact fclamp_zero_one_mem _

theorem apply_bayesian_adjustment_mem (cfg : RiskCalculationConfig)
    (raw : ℚ) (factors : List RiskFactor) :
    0 ≤ apply_bayesian_adjustment cfg raw factors ∧
      apply_bayesian_adjustment cfg raw factors ≤ 1 := by
  unfold apply_bayesian_adjustment
  exact fclamp_zero_one_mem _

theorem bayesian_branch_mem (cfg : RiskCalculationConfig)
    (raw : ℚ) (factors : List RiskFactor) (hraw : 0 ≤ raw ∧ raw ≤ 1) :
    0 ≤ (if cfg.enable_bayesian_adjustment then
        apply_bayesian_adjustment cfg raw factors else raw) ∧
      (if cfg.enable_bayesian_adjustment then
        apply_bayesian_adjustment cfg raw factors else raw) ≤ 1 := by
  split_ifs
  · exact apply_bayesian_adjustment_mem cfg raw factors
  · exact hraw

theorem simulated_scores_mem (cfg : RiskCalculationConfig)
    (factors : List RiskFactor) (x : ℚ) (hx : x ∈ simulated_scores cfg factors) :
    0 ≤ x ∧ x ≤ 1 := by
  unfold simulated_scores at hx
  obtain ⟨i, _, hi⟩ := List.mem_map.mp hx
  rw [← hi]
  exact calculate_weighted_score_mem cfg _

theorem getD_zero_mem (l : List ℚ) (i : ℕ)
    (hl : ∀ x ∈ l, 0 ≤ x ∧ x ≤ 1) : 0 ≤ l.getD i 0 ∧ l.getD i 0 ≤ 1 := by
  induction l generalizing i with
  | nil => simp
  | cons a t ih =>
    cases i with
    | zero => exact hl a (List.mem_cons_self a t)
    | succ j =>
      simpa using ih j (fun x hx => hl x (List.mem_cons_of_mem a hx))

theorem mc_percentiles_mem (cfg : RiskCalculationConfig)
    (factors : List RiskFactor) (stats : MonteCarloStatistics)
    (h : run_monte_carlo_simulation cfg factors = some stats) :
    (0 ≤ stats.percentile_5 ∧ stats.percentile_5 ≤ 1) ∧
      (0 ≤ stats.percentile_95 ∧ stats.percentile_95 ≤ 1) := by
  have hmem : ∀ x ∈ (simulated_scores cfg factors).insertionSort (· ≤ ·),
      0 ≤ x ∧ x ≤ 1 := by
    intro x hx
    exact simulated_scores_mem cfg factors x
      ((List.perm_insertionSort _ _).subset hx)
  simp only [run_monte_carlo_simulation] at h
  split_ifs at h
  obtain rfl := (Option.some.injEq _ _).mp h
  exact ⟨getD_zero_mem _ _ hmem, getD_zero_mem _ _ hmem⟩

theorem catEntry_fst (factors : List RiskFactor) (c : RiskCategory)
    (p : RiskCategory × ℚ) (h : catEntry factors c = some p) : p.1 = c := by
  simp only [catEntry] at h
  split_ifs at h
  obtain rfl := (Option.some.injEq _ _).mp h
  rfl

theorem catEntry_cons_of_ne (f : RiskFactor) (fs : List RiskFactor)
    (c : RiskCategory) (hne : f.category ≠ c) :
    catEntry (f :: fs) c = catEntry fs c := by
  have hd : (decide (f.category = c)) = false := by simpa using hne
  simp only [catEntry, List.filter_cons, hd]
  simp

theorem filterMap_map_sum_cons {g : RiskCategory → Option (RiskCategory × ℚ)}
    (t : RiskCategory × ℚ → ℚ) (c : RiskCategory) (cs : List RiskCategory) :
    (((c :: cs).filterMap g).map t).sum
      = (match g c with | none => 0 | some p => t p)
        + ((cs.filterMap g).map t).sum := by
  rcases hg : g c with _ | p <;> simp [List.filterMap_cons, hg]

theorem catSum_cons_unweighted (cfg : RiskCalculationConfig) (f : RiskFactor)
    (fs : List RiskFactor) (_h : cfg.category_weights f.category = none)
    (t : RiskCategory × ℚ → ℚ) (ht : ∀ s : ℚ, t (f.category, s) = 0)
    (cats : List RiskCategory) :
    ((cats.filterMap (catEntry (f :: fs))).map t).sum
      = ((cats.filterMap (catEntry fs)).map t).sum := by
  induction cats with
  | nil => rfl
  | cons c cs ih =>
    rw [filterMap_map_sum_cons, filterMap_map_sum_cons, ih]
    by_cases hc : f.category = c
    · have hzero : ∀ (F : List RiskFactor),
          (match catEntry F c with | none => 0 | some p => t p) = 0 := by
        intro F
        rcases hF : catEntry F c with _ | p
        · rfl
        · have h1 : p.1 = c := catEntry_fst F c p hF
          calc t p = t (p.1, p.2) := by rw [Prod.mk.eta]
            _ = t (f.category, p.2) := by rw [h1, hc]
            _ = 0 := ht p.2
      rw [hzero, hzero]
    · rw [catEntry_cons_of_ne f fs c hc]

theorem weighted_score_cons_unweighted (cfg : RiskCalculationConfig)
    (f : RiskFactor) (fs : List RiskFactor)
    (h : cfg.category_weights f.category = none) :
    calculate_weighted_score cfg (calculate_category_scores (f :: fs))
      = calculate_weighted_score cfg (calculate_category_scores fs) := by
  unfold calculate_weighted_score calculate_category_scores
  rw [catSum_cons_unweighted cfg f fs h
      (fun p => match cfg.category_weights p.1 with
        | some w => p.2 * w
        | none => 0)
      (fun s => by simp [h]) allCategories,
    catSum_cons_unweighted cfg f fs h
      (fun p => match cfg.category_weights p.1 with
        | some w => w
        | none => 0)
      (fun s => by simp [h]) allCategories]

/-! ## Claims -/

/-- C1: the risk-level buckets of `RiskLevel::from_seconds` are NOT the
closed-open intervals the claim states: the Rust ranges are inclusive at
both ends, so each cut point belongs to the more severe bucket. At the
claimed witness point `v = 100` the code yields `Critical`, not `Severe`
(and likewise at 200/400/600/900). -/
theorem C1_counterexample :
    RiskLevel.from_seconds 100 = .Critical ∧
    RiskLevel.from_seconds 200 = .Severe ∧
    RiskLevel.from_seconds 400 = .High ∧
    RiskLevel.from_seconds 600 = .Moderate ∧
    RiskLevel.from_seconds 900 = .Low ∧
    RiskLevel.from_seconds 100 ≠ .Severe := by
  decide

/-- C1 (amended): `RiskLevel::from_seconds` partitions the scale by the
closed-closed intervals `[0,100] → Critical`, `[101,200] → Severe`,
`[201,400] → High`, `[401,600] → Moderate`, `[601,900] → Low` and
`[901,∞) → Minimal`: no gaps or overlaps, with every boundary value in the
more severe bucket. -/
theorem C1_risk_level_boundaries (v : ℕ) :
    (RiskLevel.from_seconds v = .Critical ↔ v ≤ 100) ∧
    (RiskLevel.from_seconds v = .Severe ↔ 101 ≤ v ∧ v ≤ 200) ∧
    (RiskLevel.from_seconds v = .High ↔ 201 ≤ v ∧ v ≤ 400) ∧
    (RiskLevel.from_seconds v = .Moderate ↔ 401 ≤ v ∧ v ≤ 600) ∧
    (RiskLevel.from_seconds v = .Low ↔ 601 ≤ v ∧ v ≤ 900) ∧
    (RiskLevel.from_seconds v = .Minimal ↔ 901 ≤ v) := by
  unfold RiskLevel.from_seconds
  split_ifs <;> simp_all <;> omega

/-- C6: the consensus analyzer's bucket function and
`RiskLevel::from_seconds` do NOT agree at every input: at 1000 the
consensus function says `"Low"` while `from_seconds` says `Minimal`. -/
theorem C6_counterexample :
    seconds_to_risk_level 1000 = "Low" ∧
    (RiskLevel.from_seconds 1000).title = "Minimal" ∧
    seconds_to_risk_level 1000 ≠ (RiskLevel.from_seconds 1000).title := by
  decide

/-- C6 (amended): the two bucket implementations agree on every scaled
value up to 900 (the five buckets Critical/Severe/High/Moderate/Low,
with identical closed-closed boundaries); above 900 they part ways, because
`seconds_to_risk_level` has no Minimal bucket: it still reports `"Low"`
where `from_seconds` reports `Minimal`. -/
theorem C6_bucket_agreement (s : ℕ) :
    (s ≤ 900 → seconds_to_risk_level s = (RiskLevel.from_seconds s).title) ∧
    (901 ≤ s → seconds_to_risk_level s = "Low" ∧
      RiskLevel.from_seconds s = .Minimal) := by
  unfold seconds_to_risk_level RiskLevel.from_seconds CRITICAL_THRESHOLD
    SEVERE_THRESHOLD HIGH_THRESHOLD MODERATE_THRESHOLD
  constructor <;> intro h <;> split_ifs <;>
    simp_all [RiskLevel.title] <;> omega

/-- C7: `RiskFactor::new` does NOT enforce `value ∈ [0,1]`: it neither
rejects nor clamps — the out-of-range value `2` is stored unchanged. -/
theorem C7_counterexample :
    (RiskFactor.new .RegionalConflicts "X" 2 .High).value = 2 ∧
    ¬((RiskFactor.new .RegionalConflicts "X" 2 .High).value ≤ 1) := by
  decide

/-- C7 (amended): the `RiskFactor` constructor performs no validation at
all: it stores exactly the value it is given, for every input, in or out
of range. Range enforcement happens only later, inside aggregation, where
each per-category mean is clamped to `[0,1]`. -/
theorem C7_constructor_stores_value_unchanged :
    (∀ (c : RiskCategory) (n : String) (v : ℚ) (conf : ConfidenceLevel),
      (RiskFactor.new c n v conf).value = v) ∧
    (∀ (factors : List RiskFactor) (p : RiskCategory × ℚ),
      p ∈ calculate_category_scores factors → 0 ≤ p.2 ∧ p.2 ≤ 1) := by
  constructor
  · intro c n v conf
    rfl
  · intro factors p hp
    unfold calculate_category_scores at hp
    obtain ⟨c, _, he⟩ := List.mem_filterMap.mp hp
    simp only [catEntry] at he
    split_ifs at he
    obtain rfl := (Option.some.injEq _ _).mp he
    exact fclamp_zero_one_mem _

/-- C8: the score-to-scale translation is NOT strictly decreasing: the
distinct scores `0.5 < 0.5001` both map to the scaled value 720, because
rounding to an integer collapses nearby scores. -/
theorem C8_counterexample :
    (1/2 : ℚ) < 5001/10000 ∧
    score_to_seconds (1/2) = 720 ∧
    score_to_seconds (5001/10000) = 720 := by
  refine ⟨by norm_num, ?_, ?_⟩ <;>
    · norm_num [score_to_seconds, round_eq]
      decide

/-- C8 (amended): the translation satisfies `scale(0) = 1440`,
`scale(0.5) = 720`, `scale(1) = 0`, equals `round(1440 × (1 − score))`
(saturated to `ℕ`) at every score, and is weakly decreasing in the score
(strict decrease is impossible for an integer-valued function of a real
score). -/
theorem C8_scale_translation :
    score_to_seconds 0 = 1440 ∧
    score_to_seconds 0.5 = 720 ∧
    score_to_seconds 1 = 0 ∧
    (∀ s : ℚ, score_to_seconds s = (round ((1440 : ℚ) * (1 - s))).toNat) ∧
    (∀ s t : ℚ, s ≤ t → score_to_seconds t ≤ score_to_seconds s) := by
  refine ⟨?_, ?_, ?_, fun s => rfl, ?_⟩
  · norm_num [score_to_seconds, round_eq]
    decide
  · norm_num [score_to_seconds, round_eq]
    decide
  · norm_num [score_to_seconds, round_eq]
  · intro s t hst
    unfold score_to_seconds
    apply Int.toNat_le_toNat
    rw [round_eq, round_eq]
    apply Int.floor_le_floor
    linarith

/-- C2: for even-length input the consensus median is NOT the lower-middle
element: `sorted[len / 2]` names the upper of the two middle elements. On
the sorted even-length batch with scaled values `[10, 20]` the reported
consensus value is 20, not the lower-middle 10. -/
theorem C2_counterexample :
    (build_consensus ConsensusConfig.default
        [create_test_analysis 10, create_test_analysis 20]).toOption.map
      (fun c => c.consensus_seconds) = some 20 ∧
    (build_consensus ConsensusConfig.default
        [create_test_analysis 10, create_test_analysis 20]).toOption.map
      (fun c => c.consensus_seconds) ≠ some 10 := by
  constructor <;>
    simp [build_consensus, calculate_statistics, create_test_analysis,
      List.insertionSort, List.orderedInsert, Except.toOption]

/-- C2 (amended): for every batch of at least two analyses whose scaled
values arrive already sorted, the reported consensus value is the element
at index `⌊n/2⌋` of the values: the exact middle for odd `n`, and the
UPPER of the two middle elements for even `n` (not the lower, as
claimed). -/
theorem C2_median_is_upper_middle (cfg : ConsensusConfig)
    (analyses : List ClaudeRiskAnalysis) (h2 : 2 ≤ analyses.length)
    (hs : (analyses.map (fun a => a.seconds_to_midnight)).Sorted (· ≤ ·)) :
    (build_consensus cfg analyses).toOption.map (fun c => c.consensus_seconds)
      = some ((analyses.map (fun a => a.seconds_to_midnight)).getD
          (analyses.length / 2) 0) := by
  unfold build_consensus
  rw [if_neg (by omega)]
  simp [calculate_statistics, Except.toOption, hs.insertionSort_eq]

/-- C2 witness: on the sorted four-element batch `[10, 20, 30, 40]` the
theorem applies and yields the upper-middle element 30. -/
theorem C2_witness :
    (build_consensus ConsensusConfig.default
        [create_test_analysis 10, create_test_analysis 20,
         create_test_analysis 30, create_test_analysis 40]).toOption.map
      (fun c => c.consensus_seconds) = some 30 := by
  have h := C2_median_is_upper_middle ConsensusConfig.default
    [create_test_analysis 10, create_test_analysis 20,
     create_test_analysis 30, create_test_analysis 40]
    (by decide) (by decide)
  simpa [create_test_analysis] using h

/-- C9: consensus construction fails — with the `Error::Analysis` value
that is the spec's `InsufficientAnalyses` kind, and with no partial
result — exactly when fewer than 2 analyses are supplied; every batch of
at least 2 analyses produces a `ConsensusAnalysis` (there is no other
failure path: high divergence only logs a warning). -/
theorem C9_insufficient_analyses (cfg : ConsensusConfig)
    (analyses : List ClaudeRiskAnalysis) :
    ((build_consensus cfg analyses
        = .error (.analysis "Need at least 2 analyses for consensus"))
      ↔ analyses.length < 2) ∧
    (2 ≤ analyses.length →
      (build_consensus cfg analyses).toOption.isSome = true) := by
  unfold build_consensus
  constructor
  · split_ifs with h
    · simp [h]
    · simp
      omega
  · intro h
    rw [if_neg (by omega)]
    simp [Except.toOption]

/-- C9 witness: a two-element batch with divergence 950, far above the
default threshold 60, still succeeds. -/
theorem C9_witness :
    2 ≤ ([create_test_analysis 50, create_test_analysis 1000]).length ∧
    60 < calculate_divergence
      (([create_test_analysis 50, create_test_analysis 1000]).map
        (fun a => a.seconds_to_midnight)) ∧
    (build_consensus ConsensusConfig.default
      [create_test_analysis 50, create_test_analysis 1000]).toOption.isSome
      = true :=
  ⟨by decide, by decide,
    (C9_insufficient_analyses ConsensusConfig.default
      [create_test_analysis 50, create_test_analysis 1000]).2 (by decide)⟩

/-- C4: the agreement-level division is NOT guarded against `mean = 0`: on
the all-zero batch `[0, 0]` the code divides by zero, the non-finite
quotient passes through Rust's `f64::min` as `1.0`, and the computed
agreement level is `0` — while the spec's formula `1 − min(1, std_dev/mean)`
with guarded (total) division yields `1` there. -/
theorem C4_counterexample :
    calculate_agreement_level [0, 0] ((meanSeconds [0, 0] : ℚ) : ℝ) = 0 ∧
    agreement_level_formula [0, 0] = 1 ∧
    (0 : ℝ) ≠ 1 := by
  refine ⟨?_, ?_, by norm_num⟩
  · simp [calculate_agreement_level, f64_div_min_one, meanSeconds]
  · simp [agreement_level_formula, stdDevSeconds, varianceSeconds,
      meanSeconds]

/-- C4 (amended): for every batch with positive mean the consensus
agreement level equals `1 − min(1, std_dev / mean)` (population standard
deviation over arithmetic mean); the computation is total, but not through
a guard: at `mean = 0` (the all-zero batch) the unguarded `f64` division
produces a non-finite value and Rust's `min` semantics make the agreement
level `0`. -/
theorem C4_agreement_level (values : List ℕ) (_h : 0 < values.length) :
    (0 < meanSeconds values →
      calculate_agreement_level values ((meanSeconds values : ℚ) : ℝ)
        = agreement_level_formula values) ∧
    (meanSeconds values = 0 →
      calculate_agreement_level values ((meanSeconds values : ℚ) : ℝ)
        = 0) := by
  constructor
  · intro hm
    have hm' : ((meanSeconds values : ℚ) : ℝ) ≠ 0 :=
      ne_of_gt (by exact_mod_cast hm)
    simp only [calculate_agreement_level, agreement_level_formula,
      f64_div_min_one, stdDevSeconds, if_neg hm']
    rw [variance_cast, min_comm]
  · intro hm
    simp only [calculate_agreement_level, f64_div_min_one, hm]
    norm_num

/-- C4 witness: the batch `[90, 95, 88]` has positive mean 91, and the
theorem's formula equality applies to it. -/
theorem C4_witness :
    0 < ([90, 95, 88] : List ℕ).length ∧
    0 < meanSeconds [90, 95, 88] ∧
    calculate_agreement_level [90, 95, 88]
        ((meanSeconds [90, 95, 88] : ℚ) : ℝ)
      = agreement_level_formula [90, 95, 88] :=
  ⟨by decide, by norm_num [meanSeconds],
    (C4_agreement_level [90, 95, 88] (by decide)).1
      (by norm_num [meanSeconds])⟩

theorem sum_confidence_of_max (factors : List RiskFactor)
    (hconf : ∀ f ∈ factors, f.confidence.to_score = 1) :
    (factors.map (fun f => f.confidence.to_numeric)).sum
      = (factors.length : ℚ) := by
  induction factors with
  | nil => simp
  | cons a t ih =>
    simp only [List.map_cons, List.sum_cons, List.length_cons]
    rw [ConfidenceLevel.to_numeric, hconf a (List.mem_cons_self a t),
      ih (fun f hf => hconf f (List.mem_cons_of_mem a hf))]
    push_cast
    ring

theorem avg_confidence_of_max (factors : List RiskFactor)
    (hne : 0 < factors.length)
    (hconf : ∀ f ∈ factors, f.confidence.to_score = 1) :
    avg_confidence factors = 1 := by
  unfold avg_confidence
  rw [sum_confidence_of_max factors hconf, Nat.max_eq_left (by omega)]
  exact div_self (ne_of_gt (by exact_mod_cast hne))

/-- C5: for every non-empty factor set in which every factor has maximal
numeric confidence 1.0, with Bayesian adjustment enabled, the adjusted
score of the returned result equals the raw composite score exactly: the
mean confidence is 1, so `baseline_weight = (1−1) × prior = 0` and the
blend is the identity (the final clamp is also the identity because the
raw composite score is already clamped to `[0,1]`). -/
theorem C5_max_confidence_identity (cfg : RiskCalculationConfig)
    (factors : List RiskFactor)
    (henable : cfg.enable_bayesian_adjustment = true)
    (hne : 0 < factors.length)
    (hconf : ∀ f ∈ factors, f.confidence.to_score = 1) :
    (calculate_risk cfg factors).toOption.map (fun r => r.bayesian_score)
      = (calculate_risk cfg factors).toOption.map (fun r => r.raw_score) := by
  have hraw := calculate_weighted_score_mem cfg (calculate_category_scores factors)
  have hadj : apply_bayesian_adjustment cfg
      (calculate_weighted_score cfg (calculate_category_scores factors)) factors
      = calculate_weighted_score cfg (calculate_category_scores factors) := by
    simp only [apply_bayesian_adjustment,
      avg_confidence_of_max factors hne hconf]
    norm_num
    exact fclamp_of_mem hraw.1 hraw.2
  have hempty : factors.isEmpty = false := by
    cases factors
    · simp at hne
    · rfl
  cases hmcflag : cfg.enable_monte_carlo
  · simp [calculate_risk, hempty, henable, hadj, hmcflag, Except.toOption]
  · cases hrun : run_monte_carlo_simulation cfg factors
    · simp [calculate_risk, hempty, henable, hadj, hmcflag, hrun,
        Except.toOption]
    · simp [calculate_risk, hempty, henable, hadj, hmcflag, hrun,
        Except.toOption]

/-- C5 witness: one maximal-confidence factor of value `0.5` with the
default configuration (Bayesian adjustment enabled, simulation disabled):
the returned adjusted score equals the returned raw score. -/
theorem C5_witness :
    cfgNoMonteCarlo.enable_bayesian_adjustment = true ∧
    0 < ([factorHalf]).length ∧
    (calculate_risk cfgNoMonteCarlo [factorHalf]).toOption.map
        (fun r => r.bayesian_score)
      = (calculate_risk cfgNoMonteCarlo [factorHalf]).toOption.map
        (fun r => r.raw_score) :=
  ⟨rfl, by decide,
    C5_max_confidence_identity cfgNoMonteCarlo [factorHalf] rfl (by decide)
      (by norm_num [factorHalf, RiskFactor.new, ConfidenceLevel.to_score])⟩

/-- C3: the confidence interval does NOT always lie in `[0,1] × [0,1]`:
with simulation disabled, a successful calculation whose adjusted score is
`1` returns the interval `(0.9, 1.1)`, whose upper bound exceeds `1`. -/
theorem C3_counterexample :
    (calculate_risk cfgNoMonteCarlo [factorOne]).toOption.map
      (fun r => r.confidence_interval.2) = some (11/10) ∧
    (1 : ℚ) < 11/10 := by
  constructor
  · simp [calculate_risk, cfgNoMonteCarlo, factorOne, RiskFactor.new,
      calculate_category_scores, catEntry, allCategories, fclamp,
      calculate_weighted_score, apply_bayesian_adjustment, avg_confidence,
      ConfidenceLevel.to_numeric, ConfidenceLevel.to_score,
      RiskCalculationConfig.default, RiskCategory.default_weight,
      historical_baseline, Except.toOption]
    norm_num
  · norm_num

/-- C3 (amended): for every successful calculation, the confidence
interval's lower bound lies in `[0,1]` and its upper bound in `[0,1.1]`;
with simulation enabled the interval does lie in `[0,1] × [0,1]` (both
bounds are index-based percentiles of clamped scores), but with simulation
disabled the interval equals `(adjusted × 0.9, adjusted × 1.1)`, whose
upper end exceeds `1` whenever the adjusted score exceeds `10/11`. -/
theorem C3_confidence_interval_bounds (cfg : RiskCalculationConfig)
    (factors : List RiskFactor) (r : RiskCalculationResult)
    (h : calculate_risk cfg factors = .ok r) :
    (0 ≤ r.confidence_interval.1 ∧ r.confidence_interval.1 ≤ 1 ∧
      0 ≤ r.confidence_interval.2 ∧ r.confidence_interval.2 ≤ 11/10) ∧
    (cfg.enable_monte_carlo = true → r.confidence_interval.2 ≤ 1) ∧
    (cfg.enable_monte_carlo = false →
      r.confidence_interval
        = (r.bayesian_score * 0.9, r.bayesian_score * 1.1)) := by
  simp only [calculate_risk] at h
  by_cases hempty : factors.isEmpty = true
  · rw [if_pos hempty] at h
    exact absurd h (by simp)
  · rw [if_neg hempty] at h
    have hraw :=
      calculate_weighted_score_mem cfg (calculate_category_scores factors)
    by_cases hmc : cfg.enable_monte_carlo = true
    · rw [if_pos hmc] at h
      cases hrun : run_monte_carlo_simulation cfg factors with
      | none =>
        rw [hrun] at h
        exact absurd h (by simp)
      | some stats =>
        rw [hrun] at h
        dsimp only [Option.map] at h
        obtain rfl := (Except.ok.injEq _ _).mp h.symm
        have hp := mc_percentiles_mem cfg factors stats hrun
        refine ⟨⟨hp.1.1, hp.1.2, hp.2.1, le_trans hp.2.2 (by norm_num)⟩,
          fun _ => hp.2.2, fun hc => ?_⟩
        rw [hmc] at hc
        exact absurd hc (by simp)
    · rw [if_neg hmc] at h
      have hb := bayesian_branch_mem cfg
        (calculate_weighted_score cfg (calculate_category_scores factors))
        factors hraw
      dsimp only at h
      obtain rfl := (Except.ok.injEq _ _).mp h.symm
      have h0 := hb.1
      have h1 := hb.2
      refine ⟨⟨?_, ?_, ?_, ?_⟩, fun hc => absurd hc hmc, fun _ => rfl⟩ <;>
        · simp only
          nlinarith

/-- C3 witness: the concrete calculation `calculate_risk` on one
maximal-confidence factor of value `0.5`, simulation disabled, succeeds
with interval `(0.45, 0.55) = (0.5 × 0.9, 0.5 × 1.1)`, and the theorem's
bounds apply to it. -/
theorem C3_witness :
    calculate_risk cfgNoMonteCarlo [factorHalf] = .ok resultHalf ∧
    resultHalf.confidence_interval
      = (resultHalf.bayesian_score * 0.9, resultHalf.bayesian_score * 1.1) ∧
    0 ≤ resultHalf.confidence_interval.1 ∧
    resultHalf.confidence_interval.2 ≤ 11/10 := by
  have hok : calculate_risk cfgNoMonteCarlo [factorHalf] = .ok resultHalf := by
    simp [calculate_risk, cfgNoMonteCarlo, factorHalf, resultHalf,
      RiskFactor.new, calculate_category_scores, catEntry, allCategories,
      fclamp, calculate_weighted_score, apply_bayesian_adjustment,
      avg_confidence, ConfidenceLevel.to_numeric, ConfidenceLevel.to_score,
      RiskCalculationConfig.default, RiskCategory.default_weight,
      historical_baseline, score_to_seconds, round_eq,
      RiskLevel.from_seconds, determine_trend, identify_primary_drivers]
    norm_num
    decide
  have hbounds :=
    C3_confidence_interval_bounds cfgNoMonteCarlo [factorHalf] resultHalf hok
  exact ⟨hok, hbounds.2.2 rfl, hbounds.1.1, hbounds.1.2.2.2⟩

/-- C10: a factor whose category has no entry in the engine's weight table
changes neither the composite weighted score nor the primary drivers, and
the default weight table has no entry for exactly the five categories
`ArmsControlBreakdown`, `LeadershipInstability`, `CommunicationFailures`,
`EmergingTechRisks` and `EconomicPressure` — factors supplied for them are
silently excluded. -/
theorem C10_unweighted_category_excluded :
    (∀ (cfg : RiskCalculationConfig) (f : RiskFactor)
        (fs : List RiskFactor), cfg.category_weights f.category = none →
      calculate_weighted_score cfg (calculate_category_scores (f :: fs))
          = calculate_weighted_score cfg (calculate_category_scores fs) ∧
        identify_primary_drivers cfg (f :: fs)
          = identify_primary_drivers cfg fs) ∧
    (RiskCalculationConfig.default.category_weights .ArmsControlBreakdown
        = none ∧
      RiskCalculationConfig.default.category_weights .LeadershipInstability
        = none ∧
      RiskCalculationConfig.default.category_weights .CommunicationFailures
        = none ∧
      RiskCalculationConfig.default.category_weights .EmergingTechRisks
        = none ∧
      RiskCalculationConfig.default.category_weights .EconomicPressure
        = none) := by
  constructor
  · intro cfg f fs h
    refine ⟨weighted_score_cons_unweighted cfg f fs h, ?_⟩
    unfold identify_primary_drivers
    simp [List.filterMap_cons, h]
  · exact ⟨rfl, rfl, rfl, rfl, rfl⟩

end WarGames
